import Mathlib

/-!
Verification of the synthetic configuration-file generators

This file shallowly embeds the four stress-test generator scripts of the
repository (`examples/stress_tests/gen_axes.py`, `gen_just.py`, `gen_make.py`,
`gen_task.py`) and settles the specification's claims about them.

Each Python generator opens an output file, writes a fixed preamble, loops
over `range(1, n + 1)` writing one task record per index, possibly writes a
fixed epilogue, and prints a confirmation message.  We model the file content
produced by a run as a pure `String`, Python's decimal integer formatting
(`{i}` and `{i:04d}`) as executable `Nat`/`Int` to `String` functions, the
command-line entry points as functions of the argument list, and the I/O
outcome (success / caught `IOError` / uncaught exception) as an inductive.
-/

/-- The characters `0`..`9`; `digitCh d` is the digit character for `d < 10`. -/
def digitCh (d : Nat) : Char := Char.ofNat (48 + d)

/-- Fuel-driven decimal rendering: for `n < fuel`, `decAux fuel n` is the list
of decimal digits of `n` (most significant first), matching Python's `str` on
a nonnegative integer.  Structural recursion on the fuel keeps it
kernel-computable. -/
def decAux : Nat → Nat → List Char
  | 0, _ => []
  | fuel + 1, n =>
    if n < 10 then [digitCh n]
    else decAux fuel (n / 10) ++ [digitCh (n % 10)]

/-- Python's decimal rendering `f"{n}"` of a nonnegative integer. -/
def decimal (n : Nat) : String := String.mk (decAux (n + 1) n)

/-- Python's decimal rendering `f"{n}"` of an integer (possibly negative). -/
def intDecimal (n : Int) : String :=
  if n < 0 then "-" ++ decimal (-n).toNat else decimal n.toNat

/-- Python's zero-padded rendering `f"{n:04d}"` of a nonnegative integer:
left-pad the decimal form with `'0'` to at least four characters. -/
def pad4 (n : Nat) : String :=
  String.mk (List.replicate (4 - (decimal n).length) '0' ++ (decimal n).data)

/-- Python's `range(1, n + 1)` used by every generator loop: the indices
`1, 2, ..., n` in order, empty when `n ≤ 0`. -/
def rangeFrom1 (n : Int) : List Nat := (List.range n.toNat).map (· + 1)


/-!
Embedding of `examples/stress_tests/gen_axes.py`

The script writes `BASE_HEADER`, then `"\n\n"`, then one line per index
`i` in `range(1, n + 1)`, then `"\n"`, then `VARS_ENV`, and prints a
confirmation message.  In the string literals below, `\x7b`/`\x7d` stand for
the literal brace characters and `\x27` for the apostrophe.
-/

/-- The `BASE_HEADER` constant of `gen_axes.py` (the fixed TOML preamble). -/
def BASE_HEADER : String :=
  "# axes.toml for the \x27axes\x27 project\n" ++
  "# This file defines the complete development, testing, and release workflow for `axes` itself.\n" ++
  "# It is designed to be a best-practice example of a clean and maintainable configuration.\n" ++
  "\n" ++
  "# === Project Metadata ===\n" ++
  "version = \"0.2.3-beta\"\n" ++
  "description = \"The development workflow configuration for the `axes` project itself.\"\n" ++
  "\n" ++
  "# === Development Scripts ===\n" ++
  "[scripts]\n" ++
  "hello_2 = \"# Hello, <params::0(default=\x27World\x27)>\"\n" ++
  "test_rec = \"echo <scripts::test_rec2>\"\n" ++
  "test_rec2 = \"bbbbbb<scripts::test_rec>\"\n" ++
  "\n" ++
  "# --- Core Development Workflows ---\n" ++
  "build = \x7b desc = \"Builds the project in debug mode with fast compilation.\", run = \"cargo build <params>\" \x7d\n" ++
  "build_release = \x7b desc = \"Builds the project in release mode for distribution.\", run = \"cargo build --release\" \x7d\n" ++
  "run = \x7b desc = \"Runs the project, passing all arguments to the binary.\", run = \"cargo run -- <params>\" \x7d\n" ++
  "test = \x7b desc = \"Runs all unit and integration tests.\", run = \"cargo test\" \x7d\n" ++
  "\n" ++
  "# --- Code Quality ---\n" ++
  "check = \x7b desc = \"Checks the project for errors without compiling.\", run = \"cargo check\" \x7d\n" ++
  "lint = \x7b desc = \"Lints the code for style and correctness issues.\", run = \"cargo clippy -- -D warnings <params>\" \x7d\n" ++
  "fmt = \x7b desc = \"Checks if the code is formatted according to project style.\", run = \"cargo fmt --all -- --check <params>\" \x7d\n" ++
  "fmt_fix = \x7b desc = \"Formats the code automatically.\", run = \"cargo fmt --all <params>\" \x7d\n" ++
  "\n" ++
  "quality = \x7b desc = \"Runs all quality checks in sequence (fmt, check, lint, test).\", run = [\n" ++
  "    \"<scripts::fmt>\",\n" ++
  "    \"<scripts::check>\",\n" ++
  "    \"<scripts::lint>\",\n" ++
  "    \"<scripts::test>\",\n" ++
  "]\x7d\n" ++
  "\n" ++
  "_flamgraph_exec = \x7b windows = \"start flamegraph.svg\", macos = \"open flamegraph.svg\", linux = \"xdg-open flamegraph.svg\", default=\"echo \x27Flamegraph generated at flamegraph.svg\x27\" \x7d\n" ++
  "\n" ++
  "# --- Artifacts & Distribution ---\n" ++
  "clean = \x7b desc = \"Removes the target directory and build artifacts.\", run = \"cargo clean <params>\" \x7d\n" ++
  "doc = \x7b desc = \"Builds and opens the project documentation in the browser.\", run = \"cargo doc --open <params>\" \x7d\n" ++
  "\n" ++
  "\n"

/-- The `VARS_ENV` constant of `gen_axes.py` (the fixed TOML epilogue with
extra `[scripts.*]` tables, the `[vars]` table and the `[env]` table). -/
def VARS_ENV : String :=
  "\n" ++
  "\n" ++
  "[scripts.install]\n" ++
  "desc = \"Builds in release and copies the artifact to a local installation path.\"\n" ++
  "windows = [\n" ++
  "    \"# <vars::install_welcome>\",\n" ++
  "    \"<scripts::build_release>\",\n" ++
  "    \"powershell -Command \\\"New-Item -ItemType File -Path \x27<vars::install_path_win>\x27 -Force | Out-Null; Copy-Item -Path \x27.\\\\target\\\\release\\\\axes.exe\x27 -Destination \x27<vars::install_path_win>\x27\\\"\",\n" ++
  "    \"# Completed.!\"\n" ++
  "]\n" ++
  "linux = [\n" ++
  "    \"<scripts::build_release>\",\n" ++
  "    \"install -m 755 -D \\\"<path>/target/release/axes\\\" \\\"<vars::install_path_nix>\\\"\"\n" ++
  "]\n" ++
  "macos = [\n" ++
  "    \"<scripts::build_release>\",\n" ++
  "    \"install -m 755 -D \\\"<path>/target/release/axes\\\" \\\"<vars::install_path_nix>\\\"\"\n" ++
  "]\n" ++
  "\n" ++
  "[scripts.flamegraph]\n" ++
  "desc = \"Generates a performance flamegraph for a given command and opens the result.\"\n" ++
  "run = [\n" ++
  "    \"cargo flamegraph --bin axes -- <params>\",\n" ++
  "    \"<scripts::_flamgraph_exec>\"\n" ++
  "]\n" ++
  "\n" ++
  "[scripts.Hyperfine]\n" ++
  "desc = \"\"\n" ++
  "run = \"hyperfine \x27axes hello\x27 \x27just hola\x27 \x27task hello\x27 --warmup 5 --runs 50 --export-markdown benchmark_results.md\"\n" ++
  "\n" ++
  "# === Interpolation Variables ===\n" ++
  "[vars]\n" ++
  "install_welcome = \"Installing \x27axes\x27 on: \x27<vars::install_path_win>\x27...\"\n" ++
  "install_path_win = \"<params::0(default=\x27.\\\\bin\\\\axes.exe\x27)>\"\n" ++
  "install_path_nix = \"<params::0(default=\x27./bin/axes\x27)>\"\n" ++
  "\n" ++
  "# === Environment Variables ===\n" ++
  "[env]\n" ++
  "RUST_LOG = \"debug\"\n" ++
  "RUST_BACKTRACE = \"1\"\n" ++
  "CARGO_PROFILE_RELEASE_DEBUG = \"true\"\n"

/-- The task name emitted by `gen_axes.py` for index `i`: `script_{i:04d}`. -/
def axesScriptName (i : Nat) : String := "script_" ++ pad4 i

/-- The command body of one `gen_axes.py` task record:
`echo Script número {i:04d} ejecutado`. -/
def axesBody (i : Nat) : String := "echo Script número " ++ pad4 i ++ " ejecutado"

/-- One loop iteration of `generar_axes_toml`:
`f.write(f"script_{i:04d} = \"echo Script número {i:04d} ejecutado\"\n")`. -/
def axesRecord (i : Nat) : String := axesScriptName i ++ " = \"" ++ axesBody i ++ "\"\n"

/-- The full file content written by `generar_axes_toml(n, archivo)`
(the content does not depend on the file name). -/
def generar_axes_toml (n : Int) : String :=
  BASE_HEADER ++ "\n\n" ++ String.join ((rangeFrom1 n).map axesRecord) ++ "\n" ++ VARS_ENV

/-- The confirmation line printed by `generar_axes_toml`. -/
def axesSuccessMsg (n : Int) (archivo : String) : String :=
  "Archivo \x27" ++ archivo ++ "\x27 generado con " ++ intDecimal n ++ " scripts adicionales."

/-!
Embedding of `examples/stress_tests/gen_just.py`
-/

/-- The fixed header written by `generar_justfile`:
`'# justfile generado automáticamente\nset shell := ["cmd.exe", "/C"]\n'`. -/
def justHeader : String :=
  "# justfile generado automáticamente\nset shell := [\"cmd.exe\", \"/C\"]\n"

/-- The recipe name emitted by `gen_just.py` for index `i`: `receta_{i:04d}`. -/
def justName (i : Nat) : String := "receta_" ++ pad4 i

/-- The command body of one `gen_just.py` recipe:
`echo "Comando basura {i:04d}"`. -/
def justBody (i : Nat) : String := "echo \"Comando basura " ++ pad4 i ++ "\""

/-- One loop iteration of `generar_justfile`:
`f.write(f"receta_{i:04d}:\n")` and `f.write(f"    echo \"Comando basura {i:04d}\"\n\n")`. -/
def justRecord (i : Nat) : String := justName i ++ ":\n" ++ "    " ++ justBody i ++ "\n\n"

/-- The full file content written by `generar_justfile(n, nombre_archivo)`. -/
def generar_justfile (n : Int) : String :=
  justHeader ++ String.join ((rangeFrom1 n).map justRecord)

/-- The confirmation line printed by `generar_justfile`. -/
def justSuccessMsg (n : Int) (nombre_archivo : String) : String :=
  "Se generó \x27" ++ nombre_archivo ++ "\x27 con " ++ intDecimal n ++ " recetas."

/-!
Embedding of `examples/stress_tests/gen_make.py`
-/

/-- The local `script_name = f"script_{i}"` of `gen_make.py` and
`gen_task.py`. -/
def script_name (i : Nat) : String := "script_" ++ decimal i

/-- The fixed preamble written by `generate_makefile`:
`.PHONY: default\n` and `default: receta_1\n\n`. -/
def makefilePreamble : String := ".PHONY: default\n" ++ "default: receta_1\n\n"

/-- The recipe command of one `gen_make.py` target:
`@echo "Executing {script_name} ({i}/{n})"`. -/
def makeBody (n : Int) (i : Nat) : String :=
  "@echo \"Executing " ++ script_name i ++ " (" ++ decimal i ++ "/" ++ intDecimal n ++ ")\""

/-- One loop iteration of `generate_makefile`: `.PHONY: {script_name}\n`,
`{script_name}:\n`, `\t@echo "Executing {script_name} ({i}/{n})"\n\n`. -/
def makeRecord (n : Int) (i : Nat) : String :=
  ".PHONY: " ++ script_name i ++ "\n" ++ script_name i ++ ":\n" ++
    "\t" ++ makeBody n i ++ "\n\n"

/-- The full file content written by `generate_makefile(n, file_name)`. -/
def generate_makefile (n : Int) : String :=
  makefilePreamble ++ String.join ((rangeFrom1 n).map (makeRecord n))

/-- The confirmation line printed by `generate_makefile`. -/
def makeSuccessMsg (n : Int) (file_name : String) : String :=
  "Archive \x27" ++ file_name ++ "\x27 generated with " ++ intDecimal n ++ " scripts."

/-- The error line printed by `generate_makefile` when an `IOError` is caught:
`f"❌ Error al escribir en el archivo: {e}"`. -/
def makeErrMsg (e : String) : String := "❌ Error al escribir en el archivo: " ++ e

/-!
Embedding of `examples/stress_tests/gen_task.py`
-/

/-- The fixed preamble written by `generate_taskfile`: `version: '3'\n`,
`tasks:\n`, `  default:\n`, `    deps: [script_1]\n\n`. -/
def taskPreamble : String :=
  "version: \x273\x27\n" ++ "tasks:\n" ++ "  default:\n" ++ "    deps: [script_1]\n\n"

/-- The command of one `gen_task.py` task:
`echo "Executing {script_name} ({i}/{n})"`. -/
def taskBody (n : Int) (i : Nat) : String :=
  "echo \"Executing " ++ script_name i ++ " (" ++ decimal i ++ "/" ++ intDecimal n ++ ")\""

/-- One loop iteration of `generate_taskfile`: `  {script_name}:\n`,
`    cmds:\n`, `      - echo "Executing {script_name} ({i}/{n})"\n\n`. -/
def taskRecord (n : Int) (i : Nat) : String :=
  "  " ++ script_name i ++ ":\n" ++ "    cmds:\n" ++
    "      - " ++ taskBody n i ++ "\n\n"

/-- The full file content written by `generate_taskfile(n, file_name)`. -/
def generate_taskfile (n : Int) : String :=
  taskPreamble ++ String.join ((rangeFrom1 n).map (taskRecord n))

/-- The confirmation line printed by `generate_taskfile`. -/
def taskSuccessMsg (n : Int) (file_name : String) : String :=
  "File \x27" ++ file_name ++ "\x27 generated " ++ intDecimal n ++ " tasks to go-task."

/-- The error line printed by `generate_taskfile` when an `IOError` is caught:
`f"Error writting the file: {e}"`. -/
def taskErrMsg (e : String) : String := "Error writting the file: " ++ e

/-!
The four format variants, unified
-/

/-- The four generator variants of the repository, named as in the spec's
`GenerationRequest.format` enum: `RunnerToml` is `gen_axes.py`,
`JustfileMake` is `gen_just.py`, `Makefile` is `gen_make.py` and
`TaskfileYAML` is `gen_task.py`. -/
inductive Format
  | runnerToml
  | justfileMake
  | makefile
  | taskfileYAML
deriving DecidableEq, Repr

/-- The fixed preamble each variant writes before the task-record loop. -/
def preambleOf : Format → String
  | .runnerToml => BASE_HEADER ++ "\n\n"
  | .justfileMake => justHeader
  | .makefile => makefilePreamble
  | .taskfileYAML => taskPreamble

/-- The fixed epilogue each variant writes after the task-record loop
(only `gen_axes.py` has one). -/
def epilogueOf : Format → String
  | .runnerToml => "\n" ++ VARS_ENV
  | .justfileMake => ""
  | .makefile => ""
  | .taskfileYAML => ""

/-- The task-record name each variant emits for index `i`. -/
def nameOf : Format → Nat → String
  | .runnerToml => axesScriptName
  | .justfileMake => justName
  | .makefile => script_name
  | .taskfileYAML => script_name

/-- The diagnostic command inside the task record of index `i` (the record
body), for total count `n`. -/
def bodyOf : Format → Int → Nat → String
  | .runnerToml, _ => axesBody
  | .justfileMake, _ => justBody
  | .makefile, n => makeBody n
  | .taskfileYAML, n => taskBody n

/-- The full task record each variant emits for index `i`, total count `n`. -/
def recordOf : Format → Int → Nat → String
  | .runnerToml, _ => axesRecord
  | .justfileMake, _ => justRecord
  | .makefile, n => makeRecord n
  | .taskfileYAML, n => taskRecord n

/-- The full file content each variant generates for count `n`. -/
def contentOf : Format → Int → String
  | .runnerToml, n => generar_axes_toml n
  | .justfileMake, n => generar_justfile n
  | .makefile, n => generate_makefile n
  | .taskfileYAML, n => generate_taskfile n

/-- The index rendering each variant embeds in names and bodies:
zero-padded `{i:04d}` for `gen_axes.py`/`gen_just.py`, plain `{i}` for
`gen_make.py`/`gen_task.py`. -/
def indexRender : Format → Nat → String
  | .runnerToml => pad4
  | .justfileMake => pad4
  | .makefile => decimal
  | .taskfileYAML => decimal

/-- The leading word of each variant's diagnostic command (`gen_make.py`
prefixes the shell-silencing `@`). -/
def echoHead : Format → String
  | .makefile => "@echo "
  | _ => "echo "

/-!
Top-level I/O behaviour

`gen_make.py` and `gen_task.py` wrap the whole write in
`try: ... except IOError as e: print(...)`; `gen_axes.py` and `gen_just.py`
have no handler at all.  We model a run given the result of opening/writing
the output path: `none` means the I/O succeeded, `some e` means an `IOError`
carrying message `e` was raised.
-/

/-- Observable outcome of running one generator. -/
inductive RunOutcome
  /-- The write succeeded: the file holds `file` and `out` was printed. -/
  | ok (file : String) (out : String)
  /-- An `IOError` was caught by the script's `except` clause and `out` was
  printed; nothing propagates to the shell. -/
  | caught (out : String)
  /-- An exception with message `err` propagates out of the script
  (unhandled traceback). -/
  | raised (err : String)
deriving DecidableEq, Repr

/-- Whether the outcome is an unhandled exception. -/
def RunOutcome.isRaised : RunOutcome → Bool
  | .raised _ => true
  | _ => false

/-- Whether the outcome is a caught-and-logged failure. -/
def RunOutcome.isCaught : RunOutcome → Bool
  | .caught _ => true
  | _ => false

/-- Running one generator on count `n` and output path `path`, given the I/O
result `ioErr` (`none` = success, `some e` = `IOError` with message `e`).
`gen_make.py` / `gen_task.py` catch the error and print a message built from
it; `gen_axes.py` / `gen_just.py` let it propagate. -/
def runScript (fmt : Format) (n : Int) (path : String) (ioErr : Option String) :
    RunOutcome :=
  match ioErr with
  | none =>
    match fmt with
    | .runnerToml => .ok (generar_axes_toml n) (axesSuccessMsg n path)
    | .justfileMake => .ok (generar_justfile n) (justSuccessMsg n path)
    | .makefile => .ok (generate_makefile n) (makeSuccessMsg n path)
    | .taskfileYAML => .ok (generate_taskfile n) (taskSuccessMsg n path)
  | some e =>
    match fmt with
    | .makefile => .caught (makeErrMsg e)
    | .taskfileYAML => .caught (taskErrMsg e)
    | .runnerToml => .raised e
    | .justfileMake => .raised e

/-!
Command-line entry points

`gen_make.py` and `gen_task.py` read `sys.argv`: the first argument (parsed
by `int`, which raises on a non-integer — modelled by `Option`) overrides the
count, defaulting to `1000`; the second overrides the output path, defaulting
to a per-format name.  The `__main__` blocks of `gen_axes.py` and
`gen_just.py` ignore the command line entirely and call the generator with
the literal count `100000` and the function's default file name.
-/

/-- The `(count, output_path)` pair each script's `__main__` block passes to
its generator, given the argument list after the program name.  `none` models
the uncaught `ValueError` of `int()` on a non-integer first argument. -/
def cliRun (fmt : Format) (args : List String) : Option (Int × String) :=
  match fmt with
  | .makefile =>
    (match args.get? 0 with
     | some a => a.toInt?
     | none => some 1000).map
      (fun k => (k, (args.get? 1).getD "makefile.mk"))
  | .taskfileYAML =>
    (match args.get? 0 with
     | some a => a.toInt?
     | none => some 1000).map
      (fun k => (k, (args.get? 1).getD "Taskfile.yml"))
  | .runnerToml => some (100000, "axes.toml")
  | .justfileMake => some (100000, "justfile")

/-!
Filesystem model

For the idempotence claim we model the filesystem as a map from paths to
file contents.  Opening with mode `"w"` truncates the file, so the content
written by a run never depends on what the path held before.
-/

/-- Effect of a successful run on the filesystem: the output path now holds
exactly the generated content (mode `"w"` creates or truncates), every other
path is untouched. -/
def writeRun (fmt : Format) (n : Int) (path : String)
    (fs : String → Option String) : String → Option String :=
  fun p => if p = path then some (contentOf fmt n) else fs p

/-!
Properties of the decimal renderings

`decimal` is fuel-driven for kernel computability; we relate it to
`Nat.digits 10` and derive injectivity of the plain and zero-padded
renderings, which underpins uniqueness of the generated task names.
-/

lemma digitCh_injOn : ∀ a < 10, ∀ b < 10, digitCh a = digitCh b → a = b := by
  decide

lemma digitCh_ne_zeroCh : ∀ d < 10, d ≠ 0 → (digitCh d == '0') = false := by
  decide

lemma map_digitCh_inj :
    ∀ xs ys : List Nat, (∀ x ∈ xs, x < 10) → (∀ y ∈ ys, y < 10) →
      xs.map digitCh = ys.map digitCh → xs = ys := by
  intro xs
  induction xs with
  | nil =>
    intro ys _ _ h
    cases ys with
    | nil => rfl
    | cons y ys => simp at h
  | cons x xs ih =>
    intro ys hx hy h
    cases ys with
    | nil => simp at h
    | cons y ys =>
      simp only [List.map_cons, List.cons.injEq] at h
      have hxy := digitCh_injOn x (hx x (by simp)) y (hy y (by simp)) h.1
      subst hxy
      have htl := ih ys (fun a ha => hx a (by simp [ha]))
        (fun a ha => hy a (by simp [ha])) h.2
      simp [htl]

lemma decAux_eq_digits :
    ∀ n fuel : Nat, n ≠ 0 → n < fuel →
      decAux fuel n = ((Nat.digits 10 n).map digitCh).reverse := by
  intro n
  induction n using Nat.strong_induction_on with
  | _ n ih =>
    intro fuel hn hf
    match fuel, hf with
    | fuel + 1, _ =>
      rw [Nat.digits_def' (by norm_num : (1 : ℕ) < 10) (Nat.pos_of_ne_zero hn)]
      by_cases h10 : n < 10
      · have hdiv : n / 10 = 0 := Nat.div_eq_of_lt h10
        have hmod : n % 10 = n := Nat.mod_eq_of_lt h10
        simp [decAux, h10, hdiv, hmod]
      · have hpos : 0 < n / 10 := Nat.div_pos (Nat.le_of_not_lt h10) (by norm_num)
        have hlt : n / 10 < n := Nat.div_lt_self (Nat.pos_of_ne_zero hn) (by norm_num)
        have hfuel : n / 10 < fuel := by omega
        simp only [decAux, if_neg h10]
        rw [ih (n / 10) hlt fuel (Nat.pos_iff_ne_zero.mp hpos) hfuel]
        simp

lemma decimal_data (n : Nat) (hn : n ≠ 0) :
    (decimal n).data = ((Nat.digits 10 n).map digitCh).reverse := by
  have h0 : (decimal n).data = decAux (n + 1) n := rfl
  rw [h0, decAux_eq_digits n (n + 1) hn (by omega)]

lemma decimal_data_ne_singleton_zero {b : Nat} (hb : b ≠ 0) :
    (decimal b).data ≠ ['0'] := by
  rw [decimal_data b hb]
  intro h
  have hmap : (Nat.digits 10 b).map digitCh = ['0'] := by
    have := congrArg List.reverse h
    simpa using this
  have hdig : Nat.digits 10 b = [0] := by
    apply map_digitCh_inj _ [0]
      (fun x hx => Nat.digits_lt_base (by norm_num) hx) (by norm_num)
    simpa [show digitCh 0 = '0' from rfl] using hmap
  have := congrArg (Nat.ofDigits 10) hdig
  rw [Nat.ofDigits_digits] at this
  simp [Nat.ofDigits] at this
  exact hb this

lemma decimal_injective : Function.Injective decimal := by
  intro a b h
  have hd : (decimal a).data = (decimal b).data := by rw [h]
  by_cases ha : a = 0 <;> by_cases hb : b = 0
  · rw [ha, hb]
  · exfalso
    subst ha
    exact decimal_data_ne_singleton_zero hb hd.symm
  · exfalso
    subst hb
    exact decimal_data_ne_singleton_zero ha hd
  · rw [decimal_data a ha, decimal_data b hb, List.reverse_inj] at hd
    have hdig := map_digitCh_inj _ _
      (fun x hx => Nat.digits_lt_base (by norm_num) hx)
      (fun x hx => Nat.digits_lt_base (by norm_num) hx) hd
    have := congrArg (Nat.ofDigits 10) hdig
    rwa [Nat.ofDigits_digits, Nat.ofDigits_digits] at this

lemma decimal_head_ne_zero (n : Nat) (hn : n ≠ 0) :
    ∃ c cs, (decimal n).data = c :: cs ∧ (c == '0') = false := by
  have hne : Nat.digits 10 n ≠ [] := Nat.digits_ne_nil_iff_ne_zero.mpr hn
  have hmap : (Nat.digits 10 n).map digitCh ≠ [] := by simpa using hne
  have hrev : ((Nat.digits 10 n).map digitCh).reverse ≠ [] := by simpa using hmap
  obtain ⟨c, cs, hcc⟩ := List.exists_cons_of_ne_nil hrev
  refine ⟨c, cs, by rw [decimal_data n hn, hcc], ?_⟩
  have h1 : ((Nat.digits 10 n).map digitCh).reverse.head hrev = c := by
    simp [hcc]
  rw [List.head_reverse, List.getLast_map] at h1
  have hlast10 : (Nat.digits 10 n).getLast hne < 10 :=
    Nat.digits_lt_base (by norm_num) (List.getLast_mem hne)
  have hlast0 : (Nat.digits 10 n).getLast hne ≠ 0 := by
    have := Nat.getLast_digit_ne_zero 10 hn
    simpa using this
  rw [← h1]
  exact digitCh_ne_zeroCh _ hlast10 hlast0

lemma pad4_inj {a b : Nat} (ha : a ≠ 0) (hb : b ≠ 0) (h : pad4 a = pad4 b) :
    a = b := by
  apply decimal_injective
  apply String.ext
  obtain ⟨ca, csa, hda, hca⟩ := decimal_head_ne_zero a ha
  obtain ⟨cb, csb, hdb, hcb⟩ := decimal_head_ne_zero b hb
  have hdata : List.replicate (4 - (decimal a).length) '0' ++ (decimal a).data
      = List.replicate (4 - (decimal b).length) '0' ++ (decimal b).data :=
    congrArg String.data h
  have hw := congrArg (List.dropWhile (fun c => c == '0')) hdata
  rw [List.dropWhile_append_of_pos
        (by intro x hx; rw [List.eq_of_mem_replicate hx]; rfl),
      List.dropWhile_append_of_pos
        (by intro x hx; rw [List.eq_of_mem_replicate hx]; rfl)] at hw
  rw [hda, hdb] at hw
  simpa [List.dropWhile_cons, hca, hcb, hda, hdb] using hw

/-!
Properties of the index range and of the task names
-/

lemma rangeFrom1_length (n : Int) : (rangeFrom1 n).length = n.toNat := by
  simp [rangeFrom1]

lemma rangeFrom1_pairwise (n : Int) : List.Pairwise (· < ·) (rangeFrom1 n) := by
  rw [rangeFrom1, List.pairwise_map]
  exact (List.pairwise_lt_range n.toNat).imp (by omega)

lemma rangeFrom1_nodup (n : Int) : (rangeFrom1 n).Nodup :=
  (List.nodup_range n.toNat).map_on (by intro x _ y _ h; omega)

lemma mem_rangeFrom1 {n : Int} {k : Nat} (hn : 0 ≤ n) :
    k ∈ rangeFrom1 n ↔ 1 ≤ k ∧ (k : Int) ≤ n := by
  simp only [rangeFrom1, List.mem_map, List.mem_range]
  constructor
  · rintro ⟨a, ha, rfl⟩
    omega
  · rintro ⟨h1, h2⟩
    exact ⟨k - 1, by omega, by omega⟩

lemma rangeFrom1_ne_zero {n : Int} {k : Nat} (h : k ∈ rangeFrom1 n) : k ≠ 0 := by
  simp only [rangeFrom1, List.mem_map, List.mem_range] at h
  omega

lemma nameOf_inj (fmt : Format) {a b : Nat} (ha : a ≠ 0) (hb : b ≠ 0)
    (h : nameOf fmt a = nameOf fmt b) : a = b := by
  cases fmt
  · simp only [nameOf, axesScriptName] at h
    have hd := List.append_cancel_left (congrArg String.data h)
    exact pad4_inj ha hb (String.ext hd)
  · simp only [nameOf, justName] at h
    have hd := List.append_cancel_left (congrArg String.data h)
    exact pad4_inj ha hb (String.ext hd)
  · simp only [nameOf, script_name] at h
    have hd := List.append_cancel_left (congrArg String.data h)
    exact decimal_injective (String.ext hd)
  · simp only [nameOf, script_name] at h
    have hd := List.append_cancel_left (congrArg String.data h)
    exact decimal_injective (String.ext hd)

/-- Every variant's file content is its fixed preamble, the task records in
loop order, then its fixed epilogue. -/
lemma contentOf_shape (fmt : Format) (n : Int) :
    contentOf fmt n =
      preambleOf fmt ++ String.join ((rangeFrom1 n).map (recordOf fmt n)) ++
        epilogueOf fmt := by
  cases fmt <;>
    simp [contentOf, preambleOf, epilogueOf, recordOf, generar_axes_toml,
      generar_justfile, generate_makefile, generate_taskfile, String.append_assoc]

/-!
The claims
-/

/-- **C1.** For every count `n ≥ 0` and every format variant, the generated
file is the fixed preamble, then exactly `n` task records, then the fixed
epilogue; the records carry the indices `1..n` in strictly ascending order
with no gaps, no reordering and no duplicated names, and each record spells
out its name. -/
theorem c1_record_count_names (fmt : Format) (n : Int) (h : 0 ≤ n) :
    contentOf fmt n =
      preambleOf fmt ++ String.join ((rangeFrom1 n).map (recordOf fmt n)) ++
        epilogueOf fmt ∧
    ((rangeFrom1 n).map (nameOf fmt)).length = n.toNat ∧
    List.Pairwise (· < ·) (rangeFrom1 n) ∧
    (∀ k : Nat, k ∈ rangeFrom1 n ↔ 1 ≤ k ∧ (k : Int) ≤ n) ∧
    ((rangeFrom1 n).map (nameOf fmt)).Nodup ∧
    (∀ i ∈ rangeFrom1 n, ∃ pre post,
      recordOf fmt n i = pre ++ (nameOf fmt i ++ post)) := by
  refine ⟨contentOf_shape fmt n, by simp [rangeFrom1], rangeFrom1_pairwise n,
    fun k => mem_rangeFrom1 h, ?_, ?_⟩
  · exact (rangeFrom1_nodup n).map_on
      (fun x hx y hy hxy =>
        nameOf_inj fmt (rangeFrom1_ne_zero hx) (rangeFrom1_ne_zero hy) hxy)
  · intro i _
    cases fmt
    · exact ⟨"", " = \"" ++ axesBody i ++ "\"\n", by
        simp [recordOf, axesRecord, nameOf, String.append_assoc]⟩
    · exact ⟨"", ":\n" ++ "    " ++ justBody i ++ "\n\n", by
        simp [recordOf, justRecord, nameOf, String.append_assoc]⟩
    · exact ⟨".PHONY: ", "\n" ++ script_name i ++ ":\n" ++ "\t" ++
        makeBody n i ++ "\n\n", by
        simp [recordOf, makeRecord, nameOf, String.append_assoc]⟩
    · exact ⟨"  ", ":\n" ++ "    cmds:\n" ++ "      - " ++ taskBody n i ++ "\n\n", by
        simp [recordOf, taskRecord, nameOf, String.append_assoc]⟩

/-- Witness for C1 at `fmt = RunnerToml`, `n = 2`. -/
theorem c1_record_count_names_witness :
    (0 : Int) ≤ 2 ∧
    (contentOf Format.runnerToml 2 =
      preambleOf Format.runnerToml ++
        String.join ((rangeFrom1 2).map (recordOf Format.runnerToml 2)) ++
        epilogueOf Format.runnerToml ∧
    ((rangeFrom1 2).map (nameOf Format.runnerToml)).length = (2 : Int).toNat ∧
    List.Pairwise (· < ·) (rangeFrom1 2) ∧
    (∀ k : Nat, k ∈ rangeFrom1 2 ↔ 1 ≤ k ∧ (k : Int) ≤ 2) ∧
    ((rangeFrom1 2).map (nameOf Format.runnerToml)).Nodup ∧
    (∀ i ∈ rangeFrom1 2, ∃ pre post,
      recordOf Format.runnerToml 2 i = pre ++ (nameOf Format.runnerToml i ++ post))) :=
  ⟨by decide, c1_record_count_names Format.runnerToml 2 (by decide)⟩

/-- **C2.** Evaluation of `generate_makefile` at the claimed scenario
`generate(3, "out.make")`: the file does contain three `.PHONY`/target/recipe
triples for `script_1..script_3` echoing `"Executing script_i (i/3)"`, but its
default target depends on `receta_1` — a name the loop never generates — and
not on `script_1` as the claim states. -/
theorem c2_makefile_scenario :
    generate_makefile 3 =
      ".PHONY: default\ndefault: receta_1\n\n" ++
      ".PHONY: script_1\nscript_1:\n\t@echo \"Executing script_1 (1/3)\"\n\n" ++
      ".PHONY: script_2\nscript_2:\n\t@echo \"Executing script_2 (2/3)\"\n\n" ++
      ".PHONY: script_3\nscript_3:\n\t@echo \"Executing script_3 (3/3)\"\n\n" ∧
    (rangeFrom1 3).map script_name = ["script_1", "script_2", "script_3"] ∧
    "receta_1" ∉ (rangeFrom1 3).map script_name :=
  ⟨by rfl, by decide, by decide⟩

/-- **C3, counterexample.** For the Justfile variant with count `2`, the body
of the record of index `1` contains no character `2` at all, so it does not
print the total count (whose decimal rendering is `"2"`). -/
theorem c3_counterexample :
    1 ∈ rangeFrom1 2 ∧ intDecimal 2 = "2" ∧
    (bodyOf Format.justfileMake 2 1).data.contains '2' = false := by
  decide

/-- **C3, amended.** For every format variant and every index `i` of the
loop, the record body is a single `echo` command embedded in the record, and
it prints the index; only the Makefile and Taskfile variants also print the
total count. -/
theorem c3_amended (fmt : Format) (n : Int) (i : Nat) (_hi : i ∈ rangeFrom1 n) :
    (∃ rest, bodyOf fmt n i = echoHead fmt ++ rest) ∧
    (∃ pre post, bodyOf fmt n i = pre ++ (indexRender fmt i ++ post)) ∧
    ((fmt = Format.makefile ∨ fmt = Format.taskfileYAML) →
      ∃ pre post, bodyOf fmt n i = pre ++ (intDecimal n ++ post)) ∧
    (∃ pre post, recordOf fmt n i = pre ++ (bodyOf fmt n i ++ post)) := by
  cases fmt
  · refine ⟨⟨"Script número " ++ pad4 i ++ " ejecutado", ?_⟩,
      ⟨"echo Script número ", " ejecutado", ?_⟩,
      by rintro (hc | hc) <;> exact Format.noConfusion hc,
      ⟨axesScriptName i ++ " = \"", "\"\n", ?_⟩⟩
    · show axesBody i = _
      rw [axesBody]
      simp only [← String.append_assoc]
      rfl
    · simp [bodyOf, axesBody, indexRender, String.append_assoc]
    · simp [recordOf, axesRecord, bodyOf, String.append_assoc]
  · refine ⟨⟨"\"Comando basura " ++ pad4 i ++ "\"", ?_⟩,
      ⟨"echo \"Comando basura ", "\"", ?_⟩,
      by rintro (hc | hc) <;> exact Format.noConfusion hc,
      ⟨justName i ++ ":\n" ++ "    ", "\n\n", ?_⟩⟩
    · show justBody i = _
      rw [justBody]
      simp only [← String.append_assoc]
      rfl
    · simp [bodyOf, justBody, indexRender, String.append_assoc]
    · simp [recordOf, justRecord, bodyOf, String.append_assoc]
  · refine ⟨⟨"\"Executing " ++ script_name i ++ " (" ++ decimal i ++ "/" ++
        intDecimal n ++ ")\"", ?_⟩,
      ⟨"@echo \"Executing " ++ script_name i ++ " (", "/" ++ intDecimal n ++ ")\"", ?_⟩,
      fun _ => ⟨"@echo \"Executing " ++ script_name i ++ " (" ++ decimal i ++ "/",
        ")\"", ?_⟩,
      ⟨".PHONY: " ++ script_name i ++ "\n" ++ script_name i ++ ":\n" ++ "\t",
        "\n\n", ?_⟩⟩
    · show makeBody n i = _
      rw [makeBody]
      simp only [← String.append_assoc]
      rfl
    · simp [bodyOf, makeBody, indexRender, String.append_assoc]
    · simp [bodyOf, makeBody, String.append_assoc]
    · simp [recordOf, makeRecord, bodyOf, String.append_assoc]
  · refine ⟨⟨"\"Executing " ++ script_name i ++ " (" ++ decimal i ++ "/" ++
        intDecimal n ++ ")\"", ?_⟩,
      ⟨"echo \"Executing " ++ script_name i ++ " (", "/" ++ intDecimal n ++ ")\"", ?_⟩,
      fun _ => ⟨"echo \"Executing " ++ script_name i ++ " (" ++ decimal i ++ "/",
        ")\"", ?_⟩,
      ⟨"  " ++ script_name i ++ ":\n" ++ "    cmds:\n" ++ "      - ", "\n\n", ?_⟩⟩
    · show taskBody n i = _
      rw [taskBody]
      simp only [← String.append_assoc]
      rfl
    · simp [bodyOf, taskBody, indexRender, String.append_assoc]
    · simp [bodyOf, taskBody, String.append_assoc]
    · simp [recordOf, taskRecord, bodyOf, String.append_assoc]

/-- Witness for the amended C3 at `fmt = Makefile`, `n = 2`, `i = 1`. -/
theorem c3_amended_witness :
    1 ∈ rangeFrom1 2 ∧
    ((∃ rest, bodyOf Format.makefile 2 1 = echoHead Format.makefile ++ rest) ∧
    (∃ pre post, bodyOf Format.makefile 2 1 =
      pre ++ (indexRender Format.makefile 1 ++ post)) ∧
    ((Format.makefile = Format.makefile ∨ Format.makefile = Format.taskfileYAML) →
      ∃ pre post, bodyOf Format.makefile 2 1 = pre ++ (intDecimal 2 ++ post)) ∧
    (∃ pre post, recordOf Format.makefile 2 1 =
      pre ++ (bodyOf Format.makefile 2 1 ++ post))) :=
  ⟨by decide, c3_amended Format.makefile 2 1 (by decide)⟩

/-- **C4, counterexample.** An `IOError` (e.g. permission denied) during the
RunnerToml run is not caught anywhere in `gen_axes.py`: it propagates as an
unhandled fault, refuting the claim that every variant catches I/O failures
at top level. -/
theorem c4_counterexample :
    (runScript Format.runnerToml 1000 "axes.toml"
      (some "Permission denied")).isRaised = true ∧
    (runScript Format.runnerToml 1000 "axes.toml"
      (some "Permission denied")).isCaught = false := by
  decide

/-- **C4, amended.** Only the Makefile and Taskfile variants catch an
`IOError` at top level and print an error description that includes the
underlying cause; the RunnerToml and Justfile variants let it propagate
unhandled. -/
theorem c4_amended (n : Int) (path e : String) :
    (∃ pre, runScript Format.makefile n path (some e) =
      RunOutcome.caught (pre ++ e)) ∧
    (∃ pre, runScript Format.taskfileYAML n path (some e) =
      RunOutcome.caught (pre ++ e)) ∧
    runScript Format.runnerToml n path (some e) = RunOutcome.raised e ∧
    runScript Format.justfileMake n path (some e) = RunOutcome.raised e :=
  ⟨⟨"❌ Error al escribir en el archivo: ", rfl⟩,
   ⟨"Error writting the file: ", rfl⟩, rfl, rfl⟩

/-- **C5, counterexample.** The Justfile variant's `__main__` block ignores
the command line: with first argument `"5"` (a valid integer) it still
generates `100000` records to `justfile`, so the first argument does not
override the count. -/
theorem c5_counterexample :
    cliRun Format.justfileMake ["5"] = some (100000, "justfile") ∧
    (100000 : Int) ≠ 5 :=
  ⟨rfl, by decide⟩

/-- **C5, amended.** Only the Makefile and Taskfile variants implement the
command line: count defaults to `1000`, the output path to `makefile.mk` /
`Taskfile.yml`, and the two arguments override them (a non-integer first
argument makes `int()` raise, modelled by `none`).  The RunnerToml and
Justfile variants ignore the arguments and always use count `100000` and
their default file names. -/
theorem c5_amended (a b : String) :
    cliRun Format.makefile [] = some (1000, "makefile.mk") ∧
    cliRun Format.taskfileYAML [] = some (1000, "Taskfile.yml") ∧
    cliRun Format.makefile [a] = (a.toInt?).map (fun k => (k, "makefile.mk")) ∧
    cliRun Format.makefile [a, b] = (a.toInt?).map (fun k => (k, b)) ∧
    cliRun Format.taskfileYAML [a] = (a.toInt?).map (fun k => (k, "Taskfile.yml")) ∧
    cliRun Format.taskfileYAML [a, b] = (a.toInt?).map (fun k => (k, b)) ∧
    cliRun Format.runnerToml [a, b] = some (100000, "axes.toml") ∧
    cliRun Format.justfileMake [a, b] = some (100000, "justfile") :=
  ⟨rfl, rfl, rfl, rfl, rfl, rfl, rfl, rfl⟩

/-- **C6.** Generation is deterministic and truncating: writing twice with
the same `(count, output_path)` leaves the filesystem exactly as one run
does, and the output path holds a content that is a function of the format
and the count alone (no timestamps, no randomness). -/
theorem c6_idempotent (fmt : Format) (n : Int) (path p : String)
    (fs : String → Option String) :
    writeRun fmt n path (writeRun fmt n path fs) p = writeRun fmt n path fs p ∧
    writeRun fmt n path fs path = some (contentOf fmt n) := by
  constructor
  · by_cases hp : p = path <;> simp [writeRun, hp]
  · simp [writeRun]

/-- **C7.** Evaluation of `generate_taskfile` at the claimed scenario
`generate(2, "out.yml")`: the file has the version key, the `tasks` mapping
with a `default` task depending on `script_1`, and entries `script_1` and
`script_2`, each with a one-command `cmds` sequence. -/
theorem c7_taskfile_scenario :
    generate_taskfile 2 =
      "version: \x273\x27\ntasks:\n  default:\n    deps: [script_1]\n\n" ++
      "  script_1:\n    cmds:\n      - echo \"Executing script_1 (1/2)\"\n\n" ++
      "  script_2:\n    cmds:\n      - echo \"Executing script_2 (2/2)\"\n\n" := by
  rfl

/-- **C8.** With count `0`, every variant's file is exactly its fixed
boilerplate (preamble and epilogue) and the task-record list is empty. -/
theorem c8_zero_count (fmt : Format) :
    contentOf fmt 0 = preambleOf fmt ++ epilogueOf fmt ∧
    (rangeFrom1 0).map (recordOf fmt 0) = [] := by
  have hr : rangeFrom1 0 = [] := rfl
  constructor
  · rw [contentOf_shape fmt 0, hr]
    rw [show ((List.map (recordOf fmt 0) []) : List String) = [] from rfl,
      show String.join ([] : List String) = "" from rfl]
    simp
  · rw [hr]
    rfl

/-- **C9.** For every negative count, the loop over `range(1, n + 1)` is
empty and the generated file is byte-identical to the `count = 0` output;
no variant fails. -/
theorem c9_negative_count (fmt : Format) (n : Int) (h : n < 0) :
    contentOf fmt n = contentOf fmt 0 ∧ rangeFrom1 n = [] := by
  have hr : rangeFrom1 n = [] := by
    simp [rangeFrom1, Int.toNat_of_nonpos (le_of_lt h)]
  refine ⟨?_, hr⟩
  rw [contentOf_shape fmt n, contentOf_shape fmt 0, hr]
  rfl

/-- Witness for C9 at `fmt = JustfileMake`, `n = -7`. -/
theorem c9_negative_count_witness :
    (-7 : Int) < 0 ∧
    (contentOf Format.justfileMake (-7) = contentOf Format.justfileMake 0 ∧
      rangeFrom1 (-7) = []) :=
  ⟨by decide, c9_negative_count Format.justfileMake (-7) (by decide)⟩

/-- A string beginning with `pat` splits around `pat`. -/
lemma split_head (pat t : String) : ∃ a b, pat ++ t = a ++ (pat ++ b) :=
  ⟨"", t, (String.empty_append _).symm⟩

/-- Prepending preserves splitting around `pat`. -/
lemma split_extend (s : String) {pat t : String}
    (h : ∃ a b, t = a ++ (pat ++ b)) : ∃ a b, s ++ t = a ++ (pat ++ b) := by
  obtain ⟨a, b, hab⟩ := h
  exact ⟨s ++ a, b, by rw [hab, String.append_assoc]⟩

/-- **C10.** For every count `n ≥ 0`, the RunnerToml variant's output is the
fixed preamble, the `n` task records, and then the fixed nonempty epilogue
`"\n" ++ VARS_ENV`, which contains a `[scripts.install]` table, the `[vars]`
table and the `[env]` table. -/
theorem c10_axes_epilogue (n : Int) (_h : 0 ≤ n) :
    generar_axes_toml n =
      (BASE_HEADER ++ "\n\n") ++
        (String.join ((rangeFrom1 n).map axesRecord) ++ ("\n" ++ VARS_ENV)) ∧
    (∃ a b, VARS_ENV = a ++ ("[scripts.install]\n" ++ b)) ∧
    (∃ a b, VARS_ENV = a ++ ("[vars]\n" ++ b)) ∧
    (∃ a b, VARS_ENV = a ++ ("[env]\n" ++ b)) ∧
    VARS_ENV ≠ "" := by
  refine ⟨?_, ?_, ?_, ?_, by decide⟩
  · rw [generar_axes_toml]
    simp [String.append_assoc]
  · unfold VARS_ENV
    simp only [String.append_assoc]
    repeat first
      | exact split_head _ _
      | apply split_extend
  · unfold VARS_ENV
    simp only [String.append_assoc]
    repeat first
      | exact split_head _ _
      | apply split_extend
  · unfold VARS_ENV
    simp only [String.append_assoc]
    repeat first
      | exact split_head _ _
      | apply split_extend

/-- Witness for C10 at `n = 0`. -/
theorem c10_axes_epilogue_witness :
    (0 : Int) ≤ 0 ∧
    (generar_axes_toml 0 =
      (BASE_HEADER ++ "\n\n") ++
        (String.join ((rangeFrom1 0).map axesRecord) ++ ("\n" ++ VARS_ENV)) ∧
    (∃ a b, VARS_ENV = a ++ ("[scripts.install]\n" ++ b)) ∧
    (∃ a b, VARS_ENV = a ++ ("[vars]\n" ++ b)) ∧
    (∃ a b, VARS_ENV = a ++ ("[env]\n" ++ b)) ∧
    VARS_ENV ≠ "") :=
  ⟨by decide, c10_axes_epilogue 0 (by decide)⟩
